import Mathlib

/-!
Verification development for the workspace-summary pipeline of the backend
(`routers/summary.py`).  Text is modelled as `List Char` (Python `str` is a
sequence of code points, and `len`, slicing and concatenation agree with list
operations under this view).  JSON values are modelled by an inductive type;
Python's `json.loads` is an external library function and is taken as a
parameter of the parsing routine.
-/

namespace SummaryPipeline

/-- Python slice `s[:k]` where the bound `k` may be negative: a negative bound
counts from the end of the string, and results are clamped to the string. -/
def pyTake (s : List Char) (k : Int) : List Char :=
  if k < 0 then s.take ((s.length : Int) + k).toNat else s.take k.toNat

/-- From the source: token estimate is the floor of length divided by 3. -/
def estimate_tokens (text : List Char) : Nat :=
  text.length / 3

/-- The three-character ellipsis marker appended on truncation. -/
def ellipsis : List Char :=
  "...".toList

/-- From the source: return the text unchanged when the estimate is within the
budget, otherwise slice to `max_chars - 3` characters (Python slice semantics)
and append the ellipsis marker. -/
def truncate_to_token_limit (text : List Char) (max_tokens : Nat) : List Char :=
  if estimate_tokens text ≤ max_tokens then text
  else pyTake text ((max_tokens : Int) * 3 - 3) ++ ellipsis

/-- Whitespace predicate used to model Python `str.strip`. -/
def pySpace (c : Char) : Bool :=
  c.isWhitespace

/-- Model of Python `str.lstrip()`. -/
def lstrip (s : List Char) : List Char :=
  s.dropWhile pySpace

/-- Model of Python `str.rstrip()`. -/
def rstrip (s : List Char) : List Char :=
  (s.reverse.dropWhile pySpace).reverse

/-- Model of Python `str.strip()`. -/
def pyStrip (s : List Char) : List Char :=
  rstrip (lstrip s)

/-- Opening fence marker with language tag. -/
def fenceJson : List Char :=
  "```json".toList

/-- Bare fence marker. -/
def fence : List Char :=
  "```".toList

/-- From the source: cleaning of a raw LLM response before JSON parsing.
Strip surrounding whitespace, drop a leading three-backtick-json marker, then a
leading bare three-backtick marker, then a trailing three-backtick marker, and
strip surrounding whitespace again. -/
def cleanResponse (response : List Char) : List Char :=
  let c0 := pyStrip response
  let c1 := if fenceJson.isPrefixOf c0 then c0.drop 7 else c0
  let c2 := if fence.isPrefixOf c1 then c1.drop 3 else c1
  let c3 := if fence.isSuffixOf c2 then c2.take (c2.length - 3) else c2
  pyStrip c3

/-- JSON values as produced by Python `json.loads`: `null` is Python `None`,
objects are dicts built key-by-key (a duplicate key overwrites, so lookup is
last-wins).  Numbers are modelled as integers. -/
inductive Json where
  | null
  | bool (b : Bool)
  | num (n : Int)
  | str (s : String)
  | arr (elems : List Json)
  | obj (kvs : List (String × Json))

/-- Python `field in json_data` on a dict. -/
def dictMem (k : String) (kvs : List (String × Json)) : Bool :=
  kvs.any (fun p => p.1 == k)

/-- Python `dict.get(k, d)`; last binding wins, as in a dict built by
`json.loads`. -/
def dictGetD (kvs : List (String × Json)) (k : String) (d : Json) : Json :=
  match kvs.reverse.find? (fun p => p.1 == k) with
  | some p => p.2
  | none => d

/-- Python `dict.get(k)`: absent keys yield `None`, which coincides with the
value stored for a JSON `null`. -/
def dictGet (kvs : List (String × Json)) (k : String) : Json :=
  dictGetD kvs k Json.null

/-- Python `isinstance(v, str)` on a value decoded by `json.loads`. -/
def isStr : Json → Bool
  | .str _ => true
  | _ => false

/-- Python `isinstance(v, list)` on a value decoded by `json.loads`. -/
def isList : Json → Bool
  | .arr _ => true
  | _ => false

/-- The underlying list of a JSON array (the code only applies `len` and
iteration to values already checked to be lists). -/
def asArr : Json → List Json
  | .arr xs => xs
  | _ => []

/-- The underlying key-value list of a JSON object. -/
def asObj : Json → List (String × Json)
  | .obj kvs => kvs
  | _ => []

/-- The five required top-level fields, in the order the source checks them. -/
def required_fields : List String :=
  ["executive_summary", "key_points", "sections", "conclusions", "recommendations"]

/-- From the source: the per-element checks of the `sections` loop.  Returns
the first failure message, or `none` when every element passes. -/
def validateSections : Nat → List Json → Option String
  | _, [] => none
  | i, s :: rest =>
    match s with
    | .obj sk =>
      if ¬ (dictMem ("title") sk ∧ dictMem ("content") sk ∧ dictMem ("points") sk) then
        some (("sections[") ++ toString i ++ ("] must have title, content, and points"))
      else if ¬ isList (dictGet sk ("points")) then
        some (("sections[") ++ toString i ++ ("].points must be an array"))
      else validateSections (i + 1) rest
    | _ => some (("sections[") ++ toString i ++ ("] must be an object"))

/-- From the source: structural validation of a decoded JSON dict.  First the
presence loop over the required fields (returning the first missing one), then
the type and cardinality checks in source order. -/
def validate_json_format (kvs : List (String × Json)) : Bool × String :=
  match required_fields.find? (fun f => ! dictMem f kvs) with
  | some f => (false, ("Missing required field: ") ++ f)
  | none =>
    if ¬ isStr (dictGet kvs ("executive_summary")) then
      (false, "executive_summary must be a string")
    else if ¬ isList (dictGet kvs ("key_points")) then
      (false, "key_points must be an array")
    else if (asArr (dictGetD kvs ("key_points") (Json.arr []))).length < 3 then
      (false, "key_points must have at least 3 items")
    else if ¬ isList (dictGet kvs ("sections")) then
      (false, "sections must be an array")
    else
      match validateSections 0 (asArr (dictGetD kvs ("sections") (Json.arr []))) with
      | some msg => (false, msg)
      | none =>
        if ¬ isStr (dictGet kvs ("conclusions")) then
          (false, "conclusions must be a string")
        else if ¬ isList (dictGet kvs ("recommendations")) then
          (false, "recommendations must be an array")
        else (true, "")

/-- The result of running the validator body on an arbitrary decoded value,
as Python executes it: on a dict it is the structural validation; on other
values the first duck-typed operation either behaves oddly (membership on
lists and strings) or raises (`in` on scalars, `.get` on non-dicts), and a
raised error is caught by the caller's generic handler.  `.error` carries the
exception text, `.ok` the returned pair. -/
def validateAnyJson : Json → Except String (Bool × String)
  | .obj kvs => .ok (validate_json_format kvs)
  | .arr xs =>
    match required_fields.find? (fun f => ! xs.any (fun e => match e with
      | .str s => s == f
      | _ => false)) with
    | some f => .ok (false, ("Missing required field: ") ++ f)
    | none => .error "\x27list\x27 object has no attribute \x27get\x27"
  | .str s =>
    match required_fields.find?
        (fun f => ! s.toList.tails.any (fun t => (f.toList).isPrefixOf t)) with
    | some f => .ok (false, ("Missing required field: ") ++ f)
    | none => .error "\x27str\x27 object has no attribute \x27get\x27"
  | .num _ => .error "argument of type \x27int\x27 is not iterable"
  | .bool _ => .error "argument of type \x27bool\x27 is not iterable"
  | .null => .error "argument of type \x27NoneType\x27 is not iterable"

/-- From the source: clean the raw response, parse it as JSON with the
library parser `loads`, and validate the result.  A parser failure yields the
JSON-parsing error message; an exception inside validation yields the generic
format-error message; a validation failure yields the validator's message. -/
def parse_and_validate_response (loads : List Char → Except String Json)
    (response_content : List Char) : Option Json × String :=
  let cleaned := cleanResponse response_content
  match loads cleaned with
  | .error e => (none, ("JSON parsing error: ") ++ e)
  | .ok j =>
    match validateAnyJson j with
    | .error e => (none, ("Error validating format: ") ++ e)
    | .ok (true, _) => (some j, "")
    | .ok (false, msg) => (none, msg)

mutual

/-- Python `str(...)` of a decoded JSON value: identity wrapped in quotes on
strings, Python spellings for scalars, and the container `repr` format for
lists and dicts (inner strings shown single-quoted; `repr` escaping of special
characters inside strings is not modelled). -/
def pyRepr : Json → String
  | .null => "None"
  | .bool true => "True"
  | .bool false => "False"
  | .num n => toString n
  | .str s => "\x27" ++ s ++ "\x27"
  | .arr xs => "[" ++ pyReprList xs ++ "]"
  | .obj kvs => "\x7b" ++ pyReprKvs kvs ++ "\x7d"

/-- Comma-separated `repr` of the elements of a list. -/
def pyReprList : List Json → String
  | [] => ""
  | [x] => pyRepr x
  | x :: rest => pyRepr x ++ ", " ++ pyReprList rest

/-- Comma-separated `repr` of the entries of a dict. -/
def pyReprKvs : List (String × Json) → String
  | [] => ""
  | [p] => "\x27" ++ p.1 ++ "\x27: " ++ pyRepr p.2
  | p :: rest => "\x27" ++ p.1 ++ "\x27: " ++ pyRepr p.2 ++ ", " ++ pyReprKvs rest

end

/-- Python `str(...)`: strings unchanged, otherwise the `repr`-style form. -/
def pyStr : Json → String
  | .str s => s
  | j => pyRepr j

/-- Output entity `SummarySection` from the schemas module. -/
structure SummarySection where
  title : String
  content : String
  points : List String
deriving DecidableEq

/-- Output entity `SummaryReport` from the schemas module. -/
structure SummaryReport where
  executive_summary : String
  key_points : List String
  sections : List SummarySection
  conclusions : String
  recommendations : List String
deriving DecidableEq

/-- From the source: normalization of one sections element into a
`SummarySection`, coercing title, content and every point with `str(...)` and
defaulting absent keys. -/
def buildSection (s : Json) : SummarySection :=
  let sk := asObj s
  { title := pyStr (dictGetD sk ("title") (Json.str ""))
    content := pyStr (dictGetD sk ("content") (Json.str ""))
    points := (asArr (dictGetD sk ("points") (Json.arr []))).map pyStr }

/-- From the source: normalization of the validated JSON into the final
`SummaryReport`, coercing every leaf with `str(...)`. -/
def buildReport (j : Json) : SummaryReport :=
  let kvs := asObj j
  { executive_summary := pyStr (dictGetD kvs ("executive_summary") (Json.str ""))
    key_points := (asArr (dictGetD kvs ("key_points") (Json.arr []))).map pyStr
    sections := (asArr (dictGetD kvs ("sections") (Json.arr []))).map buildSection
    conclusions := pyStr (dictGetD kvs ("conclusions") (Json.str ""))
    recommendations :=
      (asArr (dictGetD kvs ("recommendations") (Json.arr []))).map pyStr }

/-- A stored message of a node.  Messages of one node are kept in creation
order (ascending identifier), so the list order is the creation order. -/
structure Message where
  sender : String
  content : String
deriving DecidableEq

/-- A stored node of a workspace, with its messages in creation order.  Nodes
of one workspace are likewise kept in creation (ascending identifier) order in
the surrounding list. -/
structure Node where
  id : String
  name : String
  model_id : String
  messages : List Message
deriving DecidableEq

/-- A stored workspace record (only the display name is used here). -/
structure Workspace where
  name : String
deriving DecidableEq

/-- One entry of `messages_data`: the per-node record the aggregation loop
appends when the node has a last message. -/
structure MsgData where
  node_name : String
  node_id : String
  model_id : String
  sender : String
  content : String
deriving DecidableEq

/-- The query for a node's most recent message: sort by identifier descending
and take the first, i.e. the last element in creation order. -/
def lastMessage (msgs : List Message) : Option Message :=
  msgs.getLast?

/-- From the source: the aggregation loop.  Each node with at least one
message contributes one entry built from the node's fields and its latest
message; nodes with no message are skipped. -/
def messagesData (nodes : List Node) : List MsgData :=
  nodes.filterMap (fun nd =>
    (lastMessage nd.messages).map (fun m =>
      { node_name := nd.name
        node_id := nd.id
        model_id := nd.model_id
        sender := m.sender
        content := m.content }))

/-- The header of the combined blob: the workspace line, a blank line, a rule
of 80 equals signs, and a blank line. -/
def headerOf (ws : Workspace) : List Char :=
  ("Workspace: ").toList ++ ws.name.toList ++ ("\n\n").toList ++
    List.replicate 80 '=' ++ ("\n\n").toList

/-- One labeled conversation block of the combined blob, for the entry at
1-based position `idx`. -/
def conversationBlock (idx : Nat) (m : MsgData) : List Char :=
  ("=== Conversation ").toList ++ (toString idx).toList ++ (": ").toList ++
    m.node_name.toList ++ (" ===\n").toList ++
  ("Model ID: ").toList ++ m.model_id.toList ++ ("\n").toList ++
  ("Sender: ").toList ++ m.sender.toList ++ ("\n").toList ++
  ("Content:\n").toList ++ m.content.toList ++ ("\n").toList ++
  ("\n").toList ++ List.replicate 80 '-' ++ ("\n\n").toList

/-- From the source: the combined content blob, built by appending one block
per `messages_data` entry to the header, enumerating from 1. -/
def combinedContent (ws : Workspace) (msgs : List MsgData) : List Char :=
  headerOf ws ++
    List.flatten (msgs.enum.map (fun p => conversationBlock (p.1 + 1) p.2))

/-- The aggregated blob the endpoint builds for a workspace: the node query
returns at most the first 1000 nodes in creation order, and the blob is the
combined content of their latest messages. -/
def aggregatedContent (ws : Workspace) (nodes : List Node) : List Char :=
  combinedContent ws (messagesData (nodes.take 1000))

/-- An HTTP error response: status code and the `detail` string of the JSON
body. -/
structure HTTPError where
  status_code : Nat
  detail : String
deriving DecidableEq

/-- The observable outcome of one LLM invocation: either the client call
raised an exception with the given text, or it returned a response body. -/
inductive AttemptOutcome where
  | raised (msg : String)
  | response (content : List Char)

/-- The retry bound of the synthesizer loop. -/
def max_retries : Nat := 5

/-- From the source: the retry loop, processing the outcome of each attempt in
order.  The loop is entered with one outcome per attempt, `max_retries` of
them; an empty remainder therefore means the current attempt is the last one.
Returns the endpoint result together with the number of LLM invocations made.
A parse or validation failure retries, or at the last attempt raises the
500-error naming the attempt count and the last failure reason; a successful
parse builds the report and returns at once; an exception from the client call
likewise retries or raises at the last attempt.  (The empty-list case is
unreachable from the endpoint, which always supplies `max_retries` ≥ 1
outcomes.) -/
def retryGo (loads : List Char → Except String Json) :
    List AttemptOutcome → Except HTTPError SummaryReport × Nat
  | [] => (.error ⟨500, ""⟩, 0)
  | o :: rest =>
    match o with
    | .raised e =>
      if rest.isEmpty then
        (.error ⟨500, ("Error calling Groq API after ") ++ toString max_retries ++
          (" attempts: ") ++ e⟩, 1)
      else
        let r := retryGo loads rest
        (r.1, r.2 + 1)
    | .response c =>
      match parse_and_validate_response loads c with
      | (some j, _) => (.ok (buildReport j), 1)
      | (none, msg) =>
        if rest.isEmpty then
          (.error ⟨500, ("Failed to get valid JSON response after ") ++
            toString max_retries ++ (" attempts. Last error: ") ++ msg⟩, 1)
        else
          let r := retryGo loads rest
          (r.1, r.2 + 1)

/-- From the source: the endpoint body of POST /summary/workspace/(id).
Inputs: whether the Groq client is configured, whether the path id is a valid
object id, the owned workspace looked up (if any), the workspace's nodes in
creation order, the JSON parser, and the outcomes of the (up to `max_retries`)
LLM invocations.  Returns the response or the raised HTTP error, paired with
the number of LLM invocations performed. -/
def summarize_workspace (hasClient : Bool) (validId : Bool)
    (workspace : Option Workspace) (nodes : List Node)
    (loads : List Char → Except String Json) (outcomes : List AttemptOutcome) :
    Except HTTPError SummaryReport × Nat :=
  if ¬ hasClient then
    (.error ⟨500, "GROQ_API_KEY chưa được cấu hình"⟩, 0)
  else if ¬ validId then
    (.error ⟨400, "Workspace ID không hợp lệ"⟩, 0)
  else
    match workspace with
    | none => (.error ⟨404, "Workspace không tìm thấy"⟩, 0)
    | some _ =>
      let nodes1000 := nodes.take 1000
      if nodes1000.isEmpty then
        (.error ⟨404, "Không tìm thấy node nào trong workspace này"⟩, 0)
      else if (messagesData nodes1000).isEmpty then
        (.error ⟨404, "Không tìm thấy tin nhắn nào trong các node"⟩, 0)
      else
        retryGo loads outcomes

/-! ## Theorems -/

/-- C2, counterexample: at budget 0 the claim fails.  The text "abc" is over
the budget (estimate 1 > 0), yet the truncation does not have length
`0 * 3 = 0`, because the Python slice bound `max_chars - 3` is negative and
counts from the end of the string. -/
theorem truncate_budget_zero_cex :
    estimate_tokens (("abc").toList) > 0 ∧
    (truncate_to_token_limit (("abc").toList) 0).length ≠ 0 * 3 := by
  decide

/-- C2 (amended: the exact-length clause requires a positive budget): below
or at budget the text is returned unchanged; for `1 ≤ max_tokens` and a text
over budget, the result has length exactly `max_tokens * 3` and ends with the
three-character ellipsis marker. -/
theorem truncate_to_token_limit_spec (text : List Char) (max_tokens : Nat) :
    (estimate_tokens text ≤ max_tokens →
      truncate_to_token_limit text max_tokens = text) ∧
    (1 ≤ max_tokens → max_tokens < estimate_tokens text →
      (truncate_to_token_limit text max_tokens).length = max_tokens * 3 ∧
        ellipsis <:+ truncate_to_token_limit text max_tokens) := by
  constructor
  · intro h
    simp [truncate_to_token_limit, h]
  · intro h1 h2
    have hnot : ¬ estimate_tokens text ≤ max_tokens := by omega
    have hlen : 3 * max_tokens + 3 ≤ text.length := by
      unfold estimate_tokens at h2
      omega
    have hk : ¬ ((max_tokens : Int) * 3 - 3 < 0) := by
      have : (1 : Int) ≤ (max_tokens : Int) := by exact_mod_cast h1
      omega
    have hkn : ((max_tokens : Int) * 3 - 3).toNat = 3 * max_tokens - 3 := by
      omega
    constructor
    · simp only [truncate_to_token_limit, if_neg hnot, pyTake, if_neg hk,
        List.length_append, List.length_take, hkn]
      have : ellipsis.length = 3 := by decide
      omega
    · simp only [truncate_to_token_limit, if_neg hnot]
      exact List.suffix_append _ _

/-- Witness for C2's amended theorem: at budget 2, the four-character text is
returned unchanged (estimate 1 ≤ 2), while the ten-character text (estimate
3 > 2) is truncated to exactly 6 characters ending in the ellipsis. -/
theorem truncate_to_token_limit_spec_witness :
    truncate_to_token_limit (("abcd").toList) 2 = ("abcd").toList ∧
    ((truncate_to_token_limit (("abcdefghij").toList) 2).length = 2 * 3 ∧
      ellipsis <:+ truncate_to_token_limit (("abcdefghij").toList) 2) :=
  ⟨(truncate_to_token_limit_spec (("abcd").toList) 2).1 (by decide),
   (truncate_to_token_limit_spec (("abcdefghij").toList) 2).2 (by decide)
     (by decide)⟩

/-- C1, counterexample: with no configured client the endpoint fails with
status 500, not 400 as claimed. -/
theorem summary_config_missing_cex :
    (summarize_workspace false true none []
        (fun _ => Except.error "") []).1 =
      Except.error ⟨500, "GROQ_API_KEY chưa được cấu hình"⟩ ∧
    ¬ ∃ d, (summarize_workspace false true none []
        (fun _ => Except.error "") []).1 = Except.error ⟨400, d⟩ := by
  constructor
  · rfl
  · rintro ⟨d, hd⟩
    have hd2 : (Except.error ⟨500, "GROQ_API_KEY chưa được cấu hình"⟩ :
        Except HTTPError SummaryReport) = Except.error ⟨400, d⟩ := hd
    simp only [Except.error.injEq, HTTPError.mk.injEq] at hd2
    omega

/-- C1 (amended: the status is 500, not 400): when the LLM credential is
absent the endpoint fails immediately — zero LLM invocations, so before any
attempt and with no retry — with status 500 and the configuration detail
message. -/
theorem summary_config_missing_fails_fast (validId : Bool)
    (workspace : Option Workspace) (nodes : List Node)
    (loads : List Char → Except String Json) (outcomes : List AttemptOutcome) :
    summarize_workspace false validId workspace nodes loads outcomes =
      (Except.error ⟨500, "GROQ_API_KEY chưa được cấu hình"⟩, 0) :=
  rfl

/-- C10: the endpoint reads at most the first 1000 nodes in creation order:
both the full endpoint result and the aggregated content blob are unchanged
when the node list is cut to its first 1000 elements, so later nodes are
silently excluded. -/
theorem summary_reads_at_most_1000_nodes (hasClient validId : Bool)
    (workspace : Option Workspace) (ws : Workspace) (nodes : List Node)
    (loads : List Char → Except String Json) (outcomes : List AttemptOutcome) :
    summarize_workspace hasClient validId workspace (nodes.take 1000) loads
        outcomes =
      summarize_workspace hasClient validId workspace nodes loads outcomes ∧
    aggregatedContent ws (nodes.take 1000) = aggregatedContent ws nodes := by
  constructor
  · simp [summarize_workspace, List.take_take]
  · simp [aggregatedContent, List.take_take]

/-- The first missing required field in the spec's fixed order (statement-side
definition following §4.4 of the spec). -/
def specFirstMissing (kvs : List (String × Json)) : Option String :=
  if ¬ dictMem ("executive_summary") kvs then some ("executive_summary")
  else if ¬ dictMem ("key_points") kvs then some ("key_points")
  else if ¬ dictMem ("sections") kvs then some ("sections")
  else if ¬ dictMem ("conclusions") kvs then some ("conclusions")
  else if ¬ dictMem ("recommendations") kvs then some ("recommendations")
  else none

/-- C6: on any JSON object with at least one required field missing, the
validator fails with the message naming exactly the first missing field in the
fixed order, before any later check can contribute a message. -/
theorem validate_names_first_missing_field (kvs : List (String × Json))
    (f : String) (h : specFirstMissing kvs = some f) :
    validate_json_format kvs = (false, ("Missing required field: ") ++ f) := by
  unfold specFirstMissing at h
  unfold validate_json_format required_fields
  cases h1 : dictMem ("executive_summary") kvs <;>
    cases h2 : dictMem ("key_points") kvs <;>
    cases h3 : dictMem ("sections") kvs <;>
    cases h4 : dictMem ("conclusions") kvs <;>
    cases h5 : dictMem ("recommendations") kvs <;>
    simp_all [List.find?]

/-- Witness for C6 at a concrete object missing `sections` (and nothing
earlier in the order): the validator names `sections`. -/
theorem validate_names_first_missing_field_witness :
    specFirstMissing
      [(("executive_summary"), Json.str ""), (("key_points"), Json.arr []),
       (("conclusions"), Json.str ""), (("recommendations"), Json.arr [])] =
      some ("sections") ∧
    validate_json_format
      [(("executive_summary"), Json.str ""), (("key_points"), Json.arr []),
       (("conclusions"), Json.str ""), (("recommendations"), Json.arr [])] =
      (false, ("Missing required field: ") ++ ("sections")) :=
  ⟨by decide,
   validate_names_first_missing_field _ _ (by decide)⟩

/-- C7, counterexample: an object with all five fields present and an empty
`key_points` array is rejected, but with the `executive_summary` type message
rather than the claimed cardinality message, because `executive_summary` is
checked first and here is not a string. -/
theorem validate_keypoints_cex :
    validate_json_format
      [(("executive_summary"), Json.num 1), (("key_points"), Json.arr []),
       (("sections"), Json.arr []), (("conclusions"), Json.str ""),
       (("recommendations"), Json.arr [])] =
      (false, "executive_summary must be a string") ∧
    ("executive_summary must be a string" : String) ≠
      "key_points must have at least 3 items" := by
  decide

/-- The checks that follow the `key_points` cardinality check, in source
order (statement-side definition following §4.4 of the spec). -/
def specLaterChecks (kvs : List (String × Json)) : Bool × String :=
  if ¬ isList (dictGet kvs ("sections")) then
    (false, "sections must be an array")
  else
    match validateSections 0 (asArr (dictGetD kvs ("sections") (Json.arr []))) with
    | some msg => (false, msg)
    | none =>
      if ¬ isStr (dictGet kvs ("conclusions")) then
        (false, "conclusions must be a string")
      else if ¬ isList (dictGet kvs ("recommendations")) then
        (false, "recommendations must be an array")
      else (true, "")

/-- C7 (amended: the cardinality message additionally requires
`executive_summary` to be a string, since that type check runs first): with
all five fields present, `executive_summary` a string and `key_points` an
array, the validator rejects with the cardinality message exactly when the
array has fewer than 3 items, and with 3 or more items the cardinality check
passes and validation proceeds to the remaining checks. -/
theorem validate_keypoints_length (kvs : List (String × Json))
    (hp : ∀ f ∈ required_fields, dictMem f kvs = true)
    (hes : isStr (dictGet kvs ("executive_summary")) = true)
    (hkp : isList (dictGet kvs ("key_points")) = true) :
    ((asArr (dictGetD kvs ("key_points") (Json.arr []))).length < 3 →
      validate_json_format kvs =
        (false, "key_points must have at least 3 items")) ∧
    (3 ≤ (asArr (dictGetD kvs ("key_points") (Json.arr []))).length →
      validate_json_format kvs = specLaterChecks kvs) := by
  have hnone : required_fields.find? (fun f => ! dictMem f kvs) = none := by
    rw [List.find?_eq_none]
    intro x hx
    simp [hp x hx]
  constructor
  · intro hlt
    simp [validate_json_format, hnone, hes, hkp, hlt]
  · intro hge
    have hnlt : ¬ (asArr (dictGetD kvs ("key_points") (Json.arr []))).length < 3 := by
      omega
    simp [validate_json_format, hnone, hes, hkp, hnlt, specLaterChecks]

/-- Witness for C7's amended theorem at two concrete objects: an empty
`key_points` array is rejected with the cardinality message; a three-element
one passes on to the later checks (which all succeed here). -/
theorem validate_keypoints_length_witness :
    validate_json_format
      [(("executive_summary"), Json.str "e"), (("key_points"), Json.arr []),
       (("sections"), Json.arr []), (("conclusions"), Json.str ""),
       (("recommendations"), Json.arr [])] =
      (false, "key_points must have at least 3 items") ∧
    validate_json_format
      [(("executive_summary"), Json.str "e"),
       (("key_points"), Json.arr [Json.str "a", Json.str "b", Json.str "c"]),
       (("sections"), Json.arr []), (("conclusions"), Json.str ""),
       (("recommendations"), Json.arr [])] =
      specLaterChecks
        [(("executive_summary"), Json.str "e"),
         (("key_points"), Json.arr [Json.str "a", Json.str "b", Json.str "c"]),
         (("sections"), Json.arr []), (("conclusions"), Json.str ""),
         (("recommendations"), Json.arr [])] :=
  ⟨(validate_keypoints_length _ (by decide) (by decide) (by decide)).1
     (by decide),
   (validate_keypoints_length _ (by decide) (by decide) (by decide)).2
     (by decide)⟩

/-- C9: the validator does not require a sections element's `title` or
`content` to be strings — any JSON values pass as long as the three keys are
present and `points` is an array — and the report built from such an object
carries the Python string coercion of those values. -/
theorem sections_title_content_any_value (tv cv : Json) (pts kps recs : List Json)
    (es co : String) (hkp : 3 ≤ kps.length) :
    validate_json_format
      [(("executive_summary"), Json.str es), (("key_points"), Json.arr kps),
       (("sections"), Json.arr [Json.obj
         [(("title"), tv), (("content"), cv), (("points"), Json.arr pts)]]),
       (("conclusions"), Json.str co), (("recommendations"), Json.arr recs)] =
      (true, "") ∧
    (buildReport (Json.obj
      [(("executive_summary"), Json.str es), (("key_points"), Json.arr kps),
       (("sections"), Json.arr [Json.obj
         [(("title"), tv), (("content"), cv), (("points"), Json.arr pts)]]),
       (("conclusions"), Json.str co),
       (("recommendations"), Json.arr recs)])).sections =
      [{ title := pyStr tv, content := pyStr cv, points := pts.map pyStr }] := by
  have hnlt : ¬ kps.length < 3 := by omega
  constructor
  · simp [validate_json_format, required_fields, List.find?, dictMem, dictGet,
      dictGetD, isStr, isList, asArr, validateSections, hnlt]
  · simp [buildReport, buildSection, asObj, dictGetD, asArr]

/-- Witness for C9: a section whose title is the number 7, whose content is
null and whose points contain the number 1 passes validation, and the report
carries their coercions "7", "None" and "1". -/
theorem sections_title_content_any_value_witness :
    validate_json_format
      [(("executive_summary"), Json.str "e"),
       (("key_points"), Json.arr [Json.str "a", Json.str "b", Json.str "c"]),
       (("sections"), Json.arr [Json.obj
         [(("title"), Json.num 7), (("content"), Json.null),
          (("points"), Json.arr [Json.num 1])]]),
       (("conclusions"), Json.str "c"), (("recommendations"), Json.arr [])] =
      (true, "") ∧
    (buildReport (Json.obj
      [(("executive_summary"), Json.str "e"),
       (("key_points"), Json.arr [Json.str "a", Json.str "b", Json.str "c"]),
       (("sections"), Json.arr [Json.obj
         [(("title"), Json.num 7), (("content"), Json.null),
          (("points"), Json.arr [Json.num 1])]]),
       (("conclusions"), Json.str "c"),
       (("recommendations"), Json.arr [])])).sections =
      [{ title := pyStr (Json.num 7), content := pyStr Json.null,
         points := [Json.num 1].map pyStr }] :=
  sections_title_content_any_value (Json.num 7) Json.null [Json.num 1]
    [Json.str "a", Json.str "b", Json.str "c"] [] ("e") ("c") (by decide)

/-- The latest (most recently created) message of a node — the last element
of its creation-ordered message list (statement-side helper; the default is
irrelevant, it is only read for nodes with at least one message). -/
def latestOf (nd : Node) : Message :=
  nd.messages.getLast?.getD ⟨"", ""⟩

/-- The `messages_data` entry a node with messages contributes (statement-side
helper). -/
def msgDataOf (nd : Node) : MsgData :=
  { node_name := nd.name
    node_id := nd.id
    model_id := nd.model_id
    sender := (latestOf nd).sender
    content := (latestOf nd).content }

/-- C8: for nodes that all have at least one message, the aggregation yields
exactly one entry per node, in node order, each carrying the node's latest
message; the blob is the header followed by exactly that list of
"Conversation" blocks enumerated from 1; each block contains its node's
latest message content; and (for arbitrary node lists) nodes with zero
messages contribute nothing. -/
theorem aggregator_one_block_per_node (ws : Workspace) (nodes : List Node)
    (h : ∀ nd ∈ nodes, nd.messages ≠ []) :
    messagesData nodes = nodes.map msgDataOf ∧
    combinedContent ws (messagesData nodes) =
      headerOf ws ++ List.flatten ((nodes.map msgDataOf).enum.map
        (fun p => conversationBlock (p.1 + 1) p.2)) ∧
    (∀ nd ∈ nodes, ∀ idx : Nat,
      (latestOf nd).content.toList <:+: conversationBlock idx (msgDataOf nd)) ∧
    (∀ nodes2 : List Node,
      messagesData nodes2 =
        messagesData (nodes2.filter (fun nd => ! nd.messages.isEmpty))) := by
  have hmain : messagesData nodes = nodes.map msgDataOf := by
    induction nodes with
    | nil => rfl
    | cons nd rest ih =>
      have hnd : nd.messages ≠ [] := h nd (by simp)
      obtain ⟨m, hm⟩ : ∃ m, nd.messages.getLast? = some m := by
        cases hl : nd.messages.getLast? with
        | some m => exact ⟨m, rfl⟩
        | none => exact absurd (List.getLast?_eq_none_iff.mp hl) hnd
      have ih2 := ih (fun x hx => h x (by simp [hx]))
      simp [messagesData, lastMessage, hm, msgDataOf, latestOf] at ih2 ⊢
      exact ih2
  refine ⟨hmain, ?_, ?_, ?_⟩
  · rw [hmain]
    rfl
  · intro nd _ idx
    refine ⟨("=== Conversation ").toList ++ (toString idx).toList ++
        (": ").toList ++ (msgDataOf nd).node_name.toList ++ (" ===\n").toList ++
        ("Model ID: ").toList ++ (msgDataOf nd).model_id.toList ++
        ("\n").toList ++ ("Sender: ").toList ++ (msgDataOf nd).sender.toList ++
        ("\n").toList ++ ("Content:\n").toList,
      ("\n").toList ++ ("\n").toList ++ List.replicate 80 '-' ++
        ("\n\n").toList, ?_⟩
    show _ = conversationBlock idx (msgDataOf nd)
    simp [conversationBlock, msgDataOf, List.append_assoc]
  · intro nodes2
    induction nodes2 with
    | nil => rfl
    | cons nd rest ih =>
      cases hm : nd.messages with
      | nil =>
        have hLast : nd.messages.getLast? = none := by rw [hm]; rfl
        have hne : nd.messages.isEmpty = true := by rw [hm]; rfl
        simp only [messagesData, lastMessage] at ih ⊢
        rw [List.filter_cons_of_neg (by simp [hne]), List.filterMap_cons, hLast]
        exact ih
      | cons m ms =>
        have hne : nd.messages.isEmpty = false := by rw [hm]; rfl
        obtain ⟨mL, hmL⟩ : ∃ mL, nd.messages.getLast? = some mL := by
          rw [hm]
          exact ⟨_, List.getLast?_eq_getLast _ (by simp)⟩
        simp only [messagesData, lastMessage] at ih ⊢
        rw [List.filter_cons_of_pos (by simp [hne]), List.filterMap_cons,
          List.filterMap_cons, hmL]
        simp only [Option.map_some']
        rw [ih]

/-- A sample workspace used to instantiate the aggregator theorem. -/
def wsW : Workspace := ⟨"W"⟩

/-- Three sample nodes, each with two messages in creation order (so the
latest message of each node is the second one). -/
def nodesW : List Node :=
  [⟨"n1", "Node1", "1", [⟨"You", "a1"⟩, ⟨"AI", "b1"⟩]⟩,
   ⟨"n2", "Node2", "2", [⟨"You", "a2"⟩, ⟨"AI", "b2"⟩]⟩,
   ⟨"n3", "Node3", "3", [⟨"You", "a3"⟩, ⟨"AI", "b3"⟩]⟩]

/-- Witness for C8 at the three sample nodes: every node has messages, and
the aggregation produces one latest-message block per node in order. -/
theorem aggregator_one_block_per_node_witness :
    (∀ nd ∈ nodesW, nd.messages ≠ []) ∧
    (messagesData nodesW = nodesW.map msgDataOf ∧
     combinedContent wsW (messagesData nodesW) =
       headerOf wsW ++ List.flatten ((nodesW.map msgDataOf).enum.map
         (fun p => conversationBlock (p.1 + 1) p.2)) ∧
     (∀ nd ∈ nodesW, ∀ idx : Nat,
       (latestOf nd).content.toList <:+: conversationBlock idx (msgDataOf nd)) ∧
     (∀ nodes2 : List Node,
       messagesData nodes2 =
         messagesData (nodes2.filter (fun nd => ! nd.messages.isEmpty)))) :=
  ⟨by decide, aggregator_one_block_per_node wsW nodesW (by decide)⟩

/-- Whether an attempt's outcome counts as a failure for the retry loop: a
raised client exception always does, a returned response does when it fails
to parse as validated JSON. -/
def attemptFails (loads : List Char → Except String Json) :
    AttemptOutcome → Bool
  | .raised _ => true
  | .response c => (parse_and_validate_response loads c).1.isNone

/-- The 500-detail message produced when the last attempt fails with the
given outcome: the transport wording for a raised exception, the JSON wording
for a failed parse/validation, each carrying the attempt count and the
failure reason. -/
def lastFailureDetail (loads : List Char → Except String Json) :
    AttemptOutcome → String
  | .raised e =>
    ("Error calling Groq API after ") ++ toString max_retries ++
      (" attempts: ") ++ e
  | .response c =>
    ("Failed to get valid JSON response after ") ++ toString max_retries ++
      (" attempts. Last error: ") ++ (parse_and_validate_response loads c).2

/-- One failing attempt with further attempts remaining: the loop retries,
adding one invocation. -/
theorem retryGo_fail_cons (loads : List Char → Except String Json)
    (o : AttemptOutcome) (rest : List AttemptOutcome)
    (hfail : attemptFails loads o = true) (hne : rest ≠ []) :
    retryGo loads (o :: rest) =
      ((retryGo loads rest).1, (retryGo loads rest).2 + 1) := by
  have hemp : rest.isEmpty = false := by
    cases rest with
    | nil => exact absurd rfl hne
    | cons a l => rfl
  cases o with
  | raised e => simp [retryGo, hemp]
  | response c =>
    cases hpv : parse_and_validate_response loads c with
    | mk fst snd =>
      cases fst with
      | some j =>
        exfalso
        simp [attemptFails, hpv] at hfail
      | none => simp [retryGo, hpv, hemp]

/-- A failing last attempt: the loop raises the 500-error carrying the last
failure's detail, after exactly one further invocation. -/
theorem retryGo_fail_last (loads : List Char → Except String Json)
    (o : AttemptOutcome) (hfail : attemptFails loads o = true) :
    retryGo loads [o] = (.error ⟨500, lastFailureDetail loads o⟩, 1) := by
  cases o with
  | raised e => simp [retryGo, lastFailureDetail]
  | response c =>
    cases hpv : parse_and_validate_response loads c with
    | mk fst snd =>
      cases fst with
      | some j =>
        exfalso
        simp [attemptFails, hpv] at hfail
      | none => simp [retryGo, hpv, lastFailureDetail]

/-- A successfully parsing attempt: the loop returns the report built from
that attempt's content at once, one invocation, regardless of any remaining
outcomes. -/
theorem retryGo_success_cons (loads : List Char → Except String Json)
    (c : List Char) (j : Json) (rest : List AttemptOutcome)
    (hsucc : (parse_and_validate_response loads c).1 = some j) :
    retryGo loads (.response c :: rest) = (.ok (buildReport j), 1) := by
  cases hpv : parse_and_validate_response loads c with
  | mk fst snd =>
    rw [hpv] at hsucc
    cases fst with
    | some j2 =>
      cases hsucc
      simp [retryGo, hpv]
    | none => exact absurd hsucc (by simp)

/-- When the client is configured, the id is valid, the workspace is found
and the (at most 1000) nodes yield at least one aggregated message, the
endpoint's result is the retry loop's result. -/
theorem summarize_runs_loop (ws : Workspace) (nodes : List Node)
    (loads : List Char → Except String Json) (outcomes : List AttemptOutcome)
    (hmd : messagesData (nodes.take 1000) ≠ []) :
    summarize_workspace true true (some ws) nodes loads outcomes =
      retryGo loads outcomes := by
  have hN : (nodes.take 1000).isEmpty = false := by
    cases hn : nodes.take 1000 with
    | nil => exact absurd (by rw [hn]; rfl) hmd
    | cons a l => rfl
  have hM : (messagesData (nodes.take 1000)).isEmpty = false := by
    cases hm2 : messagesData (nodes.take 1000) with
    | nil => exact absurd hm2 hmd
    | cons a l => rfl
  simp [summarize_workspace, hN, hM]

/-- C3: when all five attempts fail (parse/validation failure or caught
client exception), the endpoint performs exactly 5 LLM invocations and then
raises a 500-error whose detail carries the 5th attempt's failure reason and
the attempt count of 5. -/
theorem summary_exhausted_after_five (ws : Workspace) (nodes : List Node)
    (loads : List Char → Except String Json) (o1 o2 o3 o4 o5 : AttemptOutcome)
    (hmd : messagesData (nodes.take 1000) ≠ [])
    (h1 : attemptFails loads o1 = true) (h2 : attemptFails loads o2 = true)
    (h3 : attemptFails loads o3 = true) (h4 : attemptFails loads o4 = true)
    (h5 : attemptFails loads o5 = true) :
    summarize_workspace true true (some ws) nodes loads [o1, o2, o3, o4, o5] =
      (.error ⟨500, lastFailureDetail loads o5⟩, 5) := by
  rw [summarize_runs_loop ws nodes loads _ hmd]
  rw [retryGo_fail_cons loads o1 _ h1 (by simp),
    retryGo_fail_cons loads o2 _ h2 (by simp),
    retryGo_fail_cons loads o3 _ h3 (by simp),
    retryGo_fail_cons loads o4 _ h4 (by simp),
    retryGo_fail_last loads o5 h5]

/-- Witness for C3: one workspace with messages, a parser that always fails,
five response outcomes: the endpoint makes 5 invocations and fails with the
5th attempt's parse error in the detail. -/
theorem summary_exhausted_after_five_witness :
    messagesData (nodesW.take 1000) ≠ [] ∧
    attemptFails (fun _ => Except.error "boom")
      (AttemptOutcome.response (("x").toList)) = true ∧
    summarize_workspace true true (some wsW) nodesW
        (fun _ => Except.error "boom")
        [AttemptOutcome.response (("x").toList),
         AttemptOutcome.response (("x").toList),
         AttemptOutcome.response (("x").toList),
         AttemptOutcome.response (("x").toList),
         AttemptOutcome.response (("x").toList)] =
      (.error ⟨500, lastFailureDetail (fun _ => Except.error "boom")
        (AttemptOutcome.response (("x").toList))⟩, 5) :=
  ⟨by decide, by decide,
   summary_exhausted_after_five wsW nodesW (fun _ => Except.error "boom")
     _ _ _ _ _ (by decide) (by decide) (by decide) (by decide) (by decide)
     (by decide)⟩

/-- The first success after a prefix of failures: the loop returns the
report built from the succeeding attempt, after exactly one invocation per
preceding failure plus one, ignoring any remaining outcomes. -/
theorem retryGo_first_success (loads : List Char → Except String Json)
    (pre post : List AttemptOutcome) (c : List Char) (j : Json)
    (hfail : ∀ o ∈ pre, attemptFails loads o = true)
    (hsucc : (parse_and_validate_response loads c).1 = some j) :
    retryGo loads (pre ++ .response c :: post) =
      (.ok (buildReport j), pre.length + 1) := by
  induction pre with
  | nil => simpa using retryGo_success_cons loads c j post hsucc
  | cons o pre2 ih =>
    have hne : pre2 ++ AttemptOutcome.response c :: post ≠ [] := by simp
    rw [List.cons_append, retryGo_fail_cons loads o _ (hfail o (by simp)) hne,
      ih (fun x hx => hfail x (by simp [hx]))]
    simp

/-- C4: if attempts 1..k-1 fail and attempt k (1 ≤ k ≤ 5, here k-1 = the
length of the failing prefix) returns a response that parses and validates,
the endpoint invokes the LLM exactly k times, exits the loop immediately
(whatever outcomes would have followed), and returns the report built from
attempt k's parsed content. -/
theorem summary_success_at_attempt_k (ws : Workspace) (nodes : List Node)
    (loads : List Char → Except String Json)
    (pre post : List AttemptOutcome) (c : List Char) (j : Json)
    (hmd : messagesData (nodes.take 1000) ≠ [])
    (_hlen : pre.length + 1 + post.length = max_retries)
    (hfail : ∀ o ∈ pre, attemptFails loads o = true)
    (hsucc : (parse_and_validate_response loads c).1 = some j) :
    summarize_workspace true true (some ws) nodes loads
        (pre ++ .response c :: post) =
      (.ok (buildReport j), pre.length + 1) := by
  rw [summarize_runs_loop ws nodes loads _ hmd]
  exact retryGo_first_success loads pre post c j hfail hsucc

/-- A well-formed report object used to instantiate the success theorem. -/
def goodJson : Json :=
  Json.obj
    [(("executive_summary"), Json.str "s"),
     (("key_points"), Json.arr [Json.str "a", Json.str "b", Json.str "c"]),
     (("sections"), Json.arr []),
     (("conclusions"), Json.str "d"),
     (("recommendations"), Json.arr [])]

/-- A parser stub for the witness: parses the cleaned text "ok" to the
well-formed report object and fails on everything else. -/
def loadsW : List Char → Except String Json :=
  fun s => if s = ("ok").toList then Except.ok goodJson else Except.error "bad"

/-- Witness for C4 at k = 5: four failing responses then a parsing one; the
endpoint returns the report built from the 5th response after exactly 5
invocations. -/
theorem summary_success_at_attempt_k_witness :
    messagesData (nodesW.take 1000) ≠ [] ∧
    (List.replicate 4 (AttemptOutcome.response (("no").toList))).length + 1 +
      ([] : List AttemptOutcome).length = max_retries ∧
    (∀ o ∈ List.replicate 4 (AttemptOutcome.response (("no").toList)),
      attemptFails loadsW o = true) ∧
    (parse_and_validate_response loadsW (("ok").toList)).1 = some goodJson ∧
    summarize_workspace true true (some wsW) nodesW loadsW
        (List.replicate 4 (AttemptOutcome.response (("no").toList)) ++
          .response (("ok").toList) :: []) =
      (.ok (buildReport goodJson),
        (List.replicate 4 (AttemptOutcome.response (("no").toList))).length + 1) :=
  ⟨by decide, by decide, by decide, rfl,
   summary_success_at_attempt_k wsW nodesW loadsW _ _ _ _ (by decide)
     (by decide) (by decide) rfl⟩

/-- Stripping ignores an all-whitespace prefix. -/
theorem lstrip_append_ws (w s : List Char) (hw : ∀ c ∈ w, pySpace c = true) :
    lstrip (w ++ s) = lstrip s := by
  unfold lstrip
  exact List.dropWhile_append_of_pos hw

/-- Right-stripping ignores an all-whitespace suffix. -/
theorem rstrip_append_ws (s w : List Char) (hw : ∀ c ∈ w, pySpace c = true) :
    rstrip (s ++ w) = rstrip s := by
  unfold rstrip
  rw [List.reverse_append,
    List.dropWhile_append_of_pos (fun a ha => hw a (List.mem_reverse.mp ha))]

/-- Stripping keeps a string whose first character is not whitespace. -/
theorem lstrip_cons_neg (c : Char) (t : List Char) (h : pySpace c = false) :
    lstrip (c :: t) = c :: t := by
  unfold lstrip
  rw [List.dropWhile_cons_of_neg (by simp [h])]

/-- Right-stripping keeps a string whose last character is not whitespace. -/
theorem rstrip_concat_neg (t : List Char) (c : Char) (h : pySpace c = false) :
    rstrip (t ++ [c]) = t ++ [c] := by
  show List.rdropWhile pySpace (t ++ [c]) = t ++ [c]
  exact List.rdropWhile_concat_neg _ _ _ (by simp [h])

/-- An all-whitespace string strips to nothing. -/
theorem lstrip_all_ws (w : List Char) (hw : ∀ c ∈ w, pySpace c = true) :
    lstrip w = [] := by
  unfold lstrip
  exact List.dropWhile_eq_nil_iff.mpr hw

/-- Stripping discards all-whitespace padding on both sides. -/
theorem pyStrip_ws_both (wl x wr : List Char)
    (hl : ∀ c ∈ wl, pySpace c = true) (hr : ∀ c ∈ wr, pySpace c = true) :
    pyStrip (wl ++ x ++ wr) = pyStrip x := by
  unfold pyStrip
  rw [List.append_assoc, lstrip_append_ws wl (x ++ wr) hl]
  by_cases he : lstrip x = []
  · have h1 : lstrip (x ++ wr) = lstrip wr := by
      unfold lstrip at he ⊢
      rw [List.dropWhile_append, he]
      simp
    rw [h1, lstrip_all_ws wr hr, he]
  · have h1 : lstrip (x ++ wr) = lstrip x ++ wr := by
      unfold lstrip at he ⊢
      rw [List.dropWhile_append, if_neg (by simp [he])]
    rw [h1, rstrip_append_ws _ wr hr]

/-- Stripping is idempotent. -/
theorem pyStrip_idem (s : List Char) : pyStrip (pyStrip s) = pyStrip s := by
  unfold pyStrip
  have hls : lstrip (rstrip (lstrip s)) = rstrip (lstrip s) := by
    rcases hc : rstrip (lstrip s) with _ | ⟨c, v⟩
    · simp [lstrip]
    · have hpre : rstrip (lstrip s) <+: lstrip s := by
        show List.rdropWhile pySpace (lstrip s) <+: lstrip s
        exact List.rdropWhile_prefix _ _
      obtain ⟨r, hr⟩ := hpre
      rw [hc] at hr
      have hlen : 0 < (List.dropWhile pySpace s).length := by
        show 0 < (lstrip s).length
        rw [← hr]
        simp
      have hnot := List.dropWhile_get_zero_not (p := pySpace) s hlen
      have hget : (List.dropWhile pySpace s).get ⟨0, hlen⟩ = c := by
        have hd : List.dropWhile pySpace s = c :: (v ++ r) := by
          show lstrip s = c :: (v ++ r)
          rw [← hr]
          simp
        simp [hd]
      rw [hget] at hnot
      have hcf : pySpace c = false := by
        cases hcc : pySpace c with
        | true => exact absurd hcc hnot
        | false => rfl
      exact lstrip_cons_neg c v hcf
  rw [hls]
  show List.rdropWhile pySpace (List.rdropWhile pySpace (lstrip s)) =
    List.rdropWhile pySpace (lstrip s)
  exact List.rdropWhile_idempotent _ _

/-- Stripping keeps a string that neither starts nor ends with whitespace. -/
theorem pyStrip_eq_self (c d : Char) (t u : List Char)
    (hc : pySpace c = false) (hd : pySpace d = false) (h : c :: t = u ++ [d]) :
    pyStrip (c :: t) = c :: t := by
  unfold pyStrip
  rw [lstrip_cons_neg c t hc, h, rstrip_concat_neg u d hd]

/-- Cleaning a response whose stripped form neither starts nor ends with a
fence marker just strips it. -/
theorem cleanResponse_no_fences (s : List Char)
    (hpre : fence.isPrefixOf (pyStrip s) = false)
    (hsuf : fence.isSuffixOf (pyStrip s) = false) :
    cleanResponse s = pyStrip s := by
  have hjson : fenceJson.isPrefixOf (pyStrip s) = false := by
    cases hj : fenceJson.isPrefixOf (pyStrip s) with
    | false => rfl
    | true =>
      exfalso
      have h1 : fenceJson <+: pyStrip s := List.isPrefixOf_iff_prefix.mp hj
      have h2 : fence <+: fenceJson := by decide
      have h4 : fence.isPrefixOf (pyStrip s) = true :=
        List.isPrefixOf_iff_prefix.mpr (h2.trans h1)
      rw [hpre] at h4
      exact Bool.noConfusion h4
  unfold cleanResponse
  simp only [hjson, hpre, hsuf, Bool.false_eq_true, if_false]
  exact pyStrip_idem s

/-- Cleaning a response wrapped in a leading json fence and a trailing bare
fence, with whitespace around the fences, strips the fences and whitespace
and yields the stripped payload. -/
theorem cleanResponse_wrapped (s w1 w2 w3 w4 : List Char)
    (hw1 : ∀ c ∈ w1, pySpace c = true) (hw2 : ∀ c ∈ w2, pySpace c = true)
    (hw3 : ∀ c ∈ w3, pySpace c = true) (hw4 : ∀ c ∈ w4, pySpace c = true)
    (hw2n : w2 ≠ []) (_hw3n : w3 ≠ []) :
    cleanResponse (w1 ++ fenceJson ++ w2 ++ s ++ w3 ++ fence ++ w4) =
      pyStrip s := by
  have hhead : fenceJson ++ (w2 ++ (s ++ (w3 ++ fence)))
      = '`' :: (("``json").toList ++ (w2 ++ (s ++ (w3 ++ fence)))) := by
    have hf : fenceJson = '`' :: ("``json").toList := by decide
    rw [hf, List.cons_append]
  have hlast : fenceJson ++ (w2 ++ (s ++ (w3 ++ fence)))
      = (fenceJson ++ (w2 ++ (s ++ (w3 ++ ("``").toList)))) ++ ['`'] := by
    have hf : fence = ("``").toList ++ ['`'] := by decide
    rw [hf]
    simp [List.append_assoc]
  have hM : pyStrip (w1 ++ fenceJson ++ w2 ++ s ++ w3 ++ fence ++ w4)
      = fenceJson ++ (w2 ++ (s ++ (w3 ++ fence))) := by
    have e1 : w1 ++ fenceJson ++ w2 ++ s ++ w3 ++ fence ++ w4
        = w1 ++ (fenceJson ++ (w2 ++ (s ++ (w3 ++ fence)))) ++ w4 := by
      simp [List.append_assoc]
    rw [e1, pyStrip_ws_both w1 _ w4 hw1 hw4, hhead]
    exact pyStrip_eq_self '`' '`' _ _ (by decide) (by decide)
      (hhead.symm.trans hlast)
  have hp1 : fenceJson.isPrefixOf (fenceJson ++ (w2 ++ (s ++ (w3 ++ fence)))) =
      true :=
    List.isPrefixOf_iff_prefix.mpr (List.prefix_append _ _)
  have hdrop : (fenceJson ++ (w2 ++ (s ++ (w3 ++ fence)))).drop 7 =
      w2 ++ (s ++ (w3 ++ fence)) := by
    have h7 : fenceJson.length = 7 := by decide
    rw [← h7, List.drop_left]
  have hp2 : fence.isPrefixOf (w2 ++ (s ++ (w3 ++ fence))) = false := by
    obtain ⟨ch, w2t, rfl⟩ : ∃ ch t, w2 = ch :: t := by
      cases w2 with
      | nil => exact absurd rfl hw2n
      | cons a l => exact ⟨a, l, rfl⟩
    have hcw : pySpace ch = true := hw2 ch (by simp)
    have hcne : ('`' == ch) = false := by
      rw [beq_eq_false_iff_ne]
      intro h
      rw [← h] at hcw
      exact absurd hcw (by decide)
    have hfc : fence = '`' :: ("``").toList := by decide
    rw [hfc, List.cons_append, List.isPrefixOf_cons₂, hcne, Bool.false_and]
  have hs3 : fence.isSuffixOf (w2 ++ (s ++ (w3 ++ fence))) = true := by
    apply List.isSuffixOf_iff_suffix.mpr
    have he : w2 ++ (s ++ (w3 ++ fence)) = (w2 ++ s ++ w3) ++ fence := by
      simp [List.append_assoc]
    rw [he]
    exact List.suffix_append _ _
  have htake : (w2 ++ (s ++ (w3 ++ fence))).take
      ((w2 ++ (s ++ (w3 ++ fence))).length - 3) = w2 ++ s ++ w3 := by
    have he : w2 ++ (s ++ (w3 ++ fence)) = (w2 ++ s ++ w3) ++ fence := by
      simp [List.append_assoc]
    have hlen3 : fence.length = 3 := by decide
    rw [he, List.length_append, hlen3, Nat.add_sub_cancel, List.take_left]
  unfold cleanResponse
  simp only [hM, hp1, hdrop, hp2, hs3, htake, if_true, Bool.false_eq_true,
    if_false]
  exact pyStrip_ws_both w2 s w3 hw2 hw3

/-- C5: a response wrapped in a leading json fence and a trailing bare fence,
with (nonempty) whitespace around the fences, is cleaned to the same text as
the bare response — provided the stripped payload does not itself begin or
end with a fence marker — and therefore parses and validates to exactly the
same result. -/
theorem fenced_response_parses_identically
    (loads : List Char → Except String Json) (s w1 w2 w3 w4 : List Char)
    (hw1 : ∀ c ∈ w1, pySpace c = true) (hw2 : ∀ c ∈ w2, pySpace c = true)
    (hw3 : ∀ c ∈ w3, pySpace c = true) (hw4 : ∀ c ∈ w4, pySpace c = true)
    (hw2n : w2 ≠ []) (hw3n : w3 ≠ [])
    (hpre : fence.isPrefixOf (pyStrip s) = false)
    (hsuf : fence.isSuffixOf (pyStrip s) = false) :
    parse_and_validate_response loads
        (w1 ++ fenceJson ++ w2 ++ s ++ w3 ++ fence ++ w4) =
      parse_and_validate_response loads s := by
  unfold parse_and_validate_response
  rw [cleanResponse_wrapped s w1 w2 w3 w4 hw1 hw2 hw3 hw4 hw2n hw3n,
    cleanResponse_no_fences s hpre hsuf]

/-- Witness for C5: the payload "hello" wrapped in a json code fence with a
space and newlines around the fences parses identically to the bare payload
(with a parser stub, whose result the equality does not depend on). -/
theorem fenced_response_parses_identically_witness :
    (∀ c ∈ [' '], pySpace c = true) ∧ (['\n'] : List Char) ≠ [] ∧
    fence.isPrefixOf (pyStrip (("hello").toList)) = false ∧
    fence.isSuffixOf (pyStrip (("hello").toList)) = false ∧
    parse_and_validate_response (fun _ => Except.error "e")
        ([' '] ++ fenceJson ++ ['\n'] ++ ("hello").toList ++ ['\n'] ++
          fence ++ []) =
      parse_and_validate_response (fun _ => Except.error "e")
        (("hello").toList) :=
  ⟨by decide, by decide, by decide, by decide,
   fenced_response_parses_identically (fun _ => Except.error "e")
     (("hello").toList) [' '] ['\n'] ['\n'] [] (by decide) (by decide)
     (by decide) (by decide) (by decide) (by decide) (by decide) (by decide)⟩

end SummaryPipeline
